import Mathlib

/-!
Shallow embedding of the slide discovery and navigation-assembly pipeline of
`slide_generator.py` (repository digital-duck/ai_slide_deck, file
src/prefect/claude4/slide_generator.py).

Modelling conventions:
* Python `str` is modelled as Lean `String` (a wrapper around `List Char`);
  all character comparisons are by code point (`Char.toNat`), exactly as
  CPython compares strings.
* The directory is modelled as the pair of an `os.listdir` result
  (`listing : List String`, arbitrary order) and a read function
  `read : String → Option String` (`none` models `open`/`read` raising).
* Regex character classes (`\d`, `\s`, `str.isalpha` for `str.title`,
  `str.lower`) are modelled at ASCII fidelity; all inputs exercised by the
  program's own naming convention are ASCII.
-/

/-- Literal template segment 1 of the navigation page f-string (lines 324-642). -/
def navSeg1 : String :=
  "</title>\n    <style>\n        * \x7b\n            margin: 0;\n            padding: 0;\n            "
  ++ "box-sizing: border-box;\n        \x7d\n        \n        body \x7b\n            font-family: \x27Seg"
  ++ "oe UI\x27, Tahoma, Geneva, Verdana, sans-serif;\n            background: #f5f6fa;\n            heigh"
  ++ "t: 100vh;\n            overflow: hidden;\n        \x7d\n        \n        .container \x7b\n         "
  ++ "   display: flex;\n            height: 100vh;\n        \x7d\n        \n        .sidebar \x7b\n      "
  ++ "      width: 300px;\n            background: #2c3e50;\n            color: white;\n            overfl"
  ++ "ow-y: auto;\n            padding: 20px 0;\n        \x7d\n        \n        .sidebar h2 \x7b\n       "
  ++ "     text-align: center;\n            padding: 0 20px 20px 20px;\n            border-bottom: 2px sol"
  ++ "id #34495e;\n            margin-bottom: 20px;\n            color: #ecf0f1;\n            font-size: 1"
  ++ ".2em;\n        \x7d\n        \n        .section h3 \x7b\n            background: #34495e;\n         "
  ++ "   padding: 10px 20px;\n            margin: 10px 0 5px 0;\n            font-size: 0.9em;\n          "
  ++ "  text-transform: uppercase;\n            letter-spacing: 1px;\n        \x7d\n        \n        .sli"
  ++ "de-item \x7b\n            padding: 12px 20px;\n            cursor: pointer;\n            transition:"
  ++ " background-color 0.3s;\n            border-left: 4px solid transparent;\n            font-size: 0.9"
  ++ "em;\n        \x7d\n        \n        .slide-item:hover \x7b\n            background: #34495e;\n     "
  ++ "   \x7d\n        \n        .slide-item.active \x7b\n            background: #3498db;\n            bo"
  ++ "rder-left-color: #2980b9;\n            font-weight: 600;\n        \x7d\n        \n        .main-cont"
  ++ "ent \x7b\n            flex: 1;\n            display: flex;\n            flex-direction: column;\n   "
  ++ "     \x7d\n        \n        .slide-frame \x7b\n            flex: 1;\n            border: none;\n   "
  ++ "         background: white;\n        \x7d\n        \n        .navigation \x7b\n            backgroun"
  ++ "d: white;\n            padding: 15px 30px;\n            border-top: 1px solid #ddd;\n            dis"
  ++ "play: flex;\n            justify-content: center;\n            gap: 15px;\n        \x7d\n        \n "
  ++ "       .nav-btn \x7b\n            background: #3498db;\n            color: white;\n            borde"
  ++ "r: none;\n            padding: 10px 20px;\n            border-radius: 5px;\n            cursor: poin"
  ++ "ter;\n            font-size: 16px;\n            font-weight: 600;\n            transition: backgroun"
  ++ "d-color 0.3s;\n        \x7d\n        \n        .nav-btn:hover:not(:disabled) \x7b\n            backg"
  ++ "round: #2980b9;\n        \x7d\n        \n        .nav-btn:disabled \x7b\n            background: #bd"
  ++ "c3c7;\n            cursor: not-allowed;\n        \x7d\n        \n        .pdf-btn \x7b\n            "
  ++ "background: #e74c3c !important;\n            margin-left: 10px;\n        \x7d\n        \n        .pd"
  ++ "f-btn:hover \x7b\n            background: #c0392b !important;\n        \x7d\n        \n        #pdf-"
  ++ "status \x7b\n            position: fixed;\n            top: 50%;\n            left: 50%;\n          "
  ++ "  transform: translate(-50%, -50%);\n            background: rgba(0, 0, 0, 0.8);\n            color:"
  ++ " white;\n            padding: 20px;\n            border-radius: 10px;\n            display: none;\n "
  ++ "           z-index: 1000;\n        \x7d\n        \n        .slide-counter \x7b\n            backgrou"
  ++ "nd: #ecf0f1;\n            padding: 10px 20px;\n            text-align: center;\n            color: #"
  ++ "2c3e50;\n            font-weight: 600;\n            border-bottom: 1px solid #ddd;\n        \x7d\n  "
  ++ "      \n        @media (max-width: 768px) \x7b\n            .container \x7b\n                flex-di"
  ++ "rection: column;\n            \x7d\n            \n            .sidebar \x7b\n                width: "
  ++ "100%;\n                height: 200px;\n            \x7d\n            \n            .navigation \x7b\n"
  ++ "                padding: 10px 15px;\n                gap: 10px;\n            \x7d\n            \n   "
  ++ "         .nav-btn \x7b\n                padding: 8px 15px;\n                font-size: 14px;\n      "
  ++ "      \x7d\n        \x7d\n    </style>\n</head>\n<body>\n    <div class=\"container\">\n        <div"
  ++ " class=\"sidebar\">\n            <h2>🚀 "

/-- Literal template segment 2 of the navigation page f-string (lines 324-642). -/
def navSeg2 : String :=
  "</h2>\n            "

/-- Literal template segment 3 of the navigation page f-string (lines 324-642). -/
def navSeg3 : String :=
  "\n        </div>\n        \n        <div class=\"main-content\">\n            <div class=\"slide-cou"
  ++ "nter\">\n                <span id=\"current-slide\">1</span> / "

/-- Literal template segment 4 of the navigation page f-string (lines 324-642). -/
def navSeg4 : String :=
  "\n            </div>\n            \n            <iframe id=\"slide-frame\" class=\"slide-frame\" src"
  ++ "=\""

/-- Literal template segment 5 of the navigation page f-string (lines 324-642). -/
def navSeg5 : String :=
  "\"></iframe>\n            \n            <div class=\"navigation\">\n                <button class=\""
  ++ "nav-btn\" id=\"first-btn\" onclick=\"goToSlide(0)\">&lt;&lt;</button>\n                <button class"
  ++ "=\"nav-btn\" id=\"prev-btn\" onclick=\"previousSlide()\">&lt;</button>\n                <button clas"
  ++ "s=\"nav-btn\" id=\"next-btn\" onclick=\"nextSlide()\">&gt;</button>\n                <button class=\""
  ++ "nav-btn\" id=\"last-btn\" onclick=\"goToSlide("

/-- Literal template segment 6 of the navigation page f-string (lines 324-642). -/
def navSeg6 : String :=
  ")\">&gt;&gt;</button>\n                <button class=\"nav-btn pdf-btn\" id=\"pdf-btn\" onclick=\"ge"
  ++ "neratePDF()\" title=\"Generate PDF\">📄 PDF</button>\n            </div>\n        </div>\n    </div>\n"
  ++ "    \n    <!-- PDF Generation Status -->\n    <div id=\"pdf-status\">\n        <div id=\"pdf-message"
  ++ "\">Generating PDF...</div>\n        <div style=\"text-align: center; margin-top: 10px;\">\n         "
  ++ "   <div style=\"display: inline-block; width: 20px; height: 20px; border: 2px solid #f3f3f3; border-"
  ++ "top: 2px solid #3498db; border-radius: 50%; animation: spin 1s linear infinite;\"></div>\n        </"
  ++ "div>\n    </div>\n    \n    <style>\n        @keyframes spin \x7b\n            0% \x7b transform: ro"
  ++ "tate(0deg); \x7d\n            100% \x7b transform: rotate(360deg); \x7d\n        \x7d\n    </style>\n"
  ++ "    \n    <script>\n        const slides = "

/-- Literal template segment 7 of the navigation page f-string (lines 324-642). -/
def navSeg7 : String :=
  ";\n        const slideFilenames = "

/-- Literal template segment 8 of the navigation page f-string (lines 324-642). -/
def navSeg8 : String :=
  ";\n        let currentSlideIndex = 0;\n        \n        function loadSlide(slidePathWithPrefix, ind"
  ++ "ex) \x7b\n            document.getElementById(\x27slide-frame\x27).src = slidePathWithPrefix;\n     "
  ++ "       currentSlideIndex = index;\n            updateUI();\n        \x7d\n        \n        function"
  ++ " updateUI() \x7b\n            // Update slide counter\n            document.getElementById(\x27curre"
  ++ "nt-slide\x27).textContent = currentSlideIndex + 1;\n            \n            // Update active sideb"
  ++ "ar item\n            document.querySelectorAll(\x27.slide-item\x27).forEach((item, index) => \x7b\n "
  ++ "               item.classList.toggle(\x27active\x27, index === currentSlideIndex);\n            \x7d"
  ++ ");\n            \n            // Update navigation buttons\n            document.getElementById(\x27"
  ++ "first-btn\x27).disabled = currentSlideIndex === 0;\n            document.getElementById(\x27prev-btn"
  ++ "\x27).disabled = currentSlideIndex === 0;\n            document.getElementById(\x27next-btn\x27).dis"
  ++ "abled = currentSlideIndex === slides.length - 1;\n            document.getElementById(\x27last-btn\x27"
  ++ ").disabled = currentSlideIndex === slides.length - 1;\n        \x7d\n        \n        function goTo"
  ++ "Slide(index) \x7b\n            if (index >= 0 && index < slides.length) \x7b\n                loadSl"
  ++ "ide(slides[index], index);\n            \x7d\n        \x7d\n        \n        function nextSlide() \x7b"
  ++ "\n            if (currentSlideIndex < slides.length - 1) \x7b\n                goToSlide(currentSlid"
  ++ "eIndex + 1);\n            \x7d\n        \x7d\n        \n        function previousSlide() \x7b\n     "
  ++ "       if (currentSlideIndex > 0) \x7b\n                goToSlide(currentSlideIndex - 1);\n         "
  ++ "   \x7d\n        \x7d\n        \n        // Keyboard navigation\n        document.addEventListener(\x27"
  ++ "keydown\x27, function(e) \x7b\n            switch(e.key) \x7b\n                case \x27ArrowLeft\x27"
  ++ ":\n                    previousSlide();\n                    break;\n                case \x27ArrowR"
  ++ "ight\x27:\n                    nextSlide();\n                    break;\n                case \x27Ho"
  ++ "me\x27:\n                    goToSlide(0);\n                    break;\n                case \x27End"
  ++ "\x27:\n                    goToSlide(slides.length - 1);\n                    break;\n            \x7d"
  ++ "\n        \x7d);\n        \n        // Initialize\n        updateUI();\n        \n        // PDF Gen"
  ++ "eration Function\n        async function generatePDF() \x7b\n            const pdfStatus = document."
  ++ "getElementById(\x27pdf-status\x27);\n            const pdfMessage = document.getElementById(\x27pdf-"
  ++ "message\x27);\n            \n            try \x7b\n                pdfStatus.style.display = \x27blo"
  ++ "ck\x27;\n                pdfMessage.textContent = \x27Preparing PDF generation...\x27;\n            "
  ++ "    \n                // Call the PDF generation endpoint\n                const response = await fe"
  ++ "tch(\x27/generate-pdf\x27, \x7b\n                    method: \x27POST\x27,\n                    head"
  ++ "ers: \x7b\n                        \x27Content-Type\x27: \x27application/json\x27\n                 "
  ++ "   \x7d,\n                    body: JSON.stringify(\x7b\n                        slides: slideFilena"
  ++ "mes,\n                        title: \x27"

/-- Literal template segment 9 of the navigation page f-string (lines 324-642). -/
def navSeg9 : String :=
  "\x27\n                    \x7d)\n                \x7d);\n                \n                if (respo"
  ++ "nse.ok) \x7b\n                    const blob = await response.blob();\n                    const url"
  ++ " = window.URL.createObjectURL(blob);\n                    const a = document.createElement(\x27a\x27"
  ++ ");\n                    a.href = url;\n                    a.download = \x27"

/-- Literal template segment 10 of the navigation page f-string (lines 324-642). -/
def navSeg10 : String :=
  "_slides.pdf\x27;\n                    document.body.appendChild(a);\n                    a.click();\n"
  ++ "                    window.URL.revokeObjectURL(url);\n                    document.body.removeChild("
  ++ "a);\n                    \n                    pdfMessage.textContent = \x27PDF downloaded successfu"
  ++ "lly!\x27;\n                    setTimeout(() => \x7b\n                        pdfStatus.style.displa"
  ++ "y = \x27none\x27;\n                    \x7d, 2000);\n                \x7d else \x7b\n               "
  ++ "     throw new Error(\x27PDF generation failed\x27);\n                \x7d\n            \x7d catch ("
  ++ "error) \x7b\n                console.error(\x27PDF generation error:\x27, error);\n                p"
  ++ "dfMessage.textContent = \x27PDF generation failed. Please try the CLI command instead.\x27;\n       "
  ++ "         setTimeout(() => \x7b\n                    pdfStatus.style.display = \x27none\x27;\n       "
  ++ "         \x7d, 3000);\n            \x7d\n        \x7d\n    </script>\n</body>\n</html>"

/-- The literal CSS returned by create_base_styles (lines 30-203). -/
def baseStyles : String :=
  "\n    <style>\n        * \x7b\n            margin: 0;\n            padding: 0;\n            box-sizi"
  ++ "ng: border-box;\n        \x7d\n        \n        body \x7b\n            font-family: \x27Segoe UI\x27"
  ++ ", Tahoma, Geneva, Verdana, sans-serif;\n            line-height: 1.6;\n            color: #333;\n   "
  ++ "         background: linear-gradient(135deg, #667eea 0%, #764ba2 100%);\n            min-height: 100"
  ++ "vh;\n            padding: 20px;\n        \x7d\n        \n        .slide-container \x7b\n            "
  ++ "max-width: 1000px;\n            margin: 0 auto;\n            background: white;\n            border-"
  ++ "radius: 15px;\n            box-shadow: 0 10px 30px rgba(0,0,0,0.2);\n            padding: 40px;\n   "
  ++ "         min-height: 600px;\n        \x7d\n        \n        h1 \x7b\n            color: #2c3e50;\n "
  ++ "           font-size: 2.5em;\n            margin-bottom: 30px;\n            text-align: center;\n   "
  ++ "         border-bottom: 3px solid #3498db;\n            padding-bottom: 15px;\n        \x7d\n       "
  ++ " \n        h2 \x7b\n            color: #34495e;\n            font-size: 1.8em;\n            margin-b"
  ++ "ottom: 20px;\n            text-align: center;\n        \x7d\n        \n        h3 \x7b\n            "
  ++ "color: #2980b9;\n            font-size: 1.4em;\n            margin: 25px 0 15px 0;\n            bord"
  ++ "er-left: 4px solid #3498db;\n            padding-left: 15px;\n        \x7d\n        \n        h4 \x7b"
  ++ "\n            color: #8e44ad;\n            font-size: 1.2em;\n            margin: 20px 0 10px 0;\n  "
  ++ "      \x7d\n        \n        .slide-content \x7b\n            font-size: 1.1em;\n        \x7d\n    "
  ++ "    \n        ul \x7b\n            margin: 15px 0 15px 30px;\n        \x7d\n        \n        li \x7b"
  ++ "\n            margin: 8px 0;\n        \x7d\n        \n        .two-column \x7b\n            display:"
  ++ " grid;\n            grid-template-columns: 1fr 1fr;\n            gap: 30px;\n            margin: 20p"
  ++ "x 0;\n        \x7d\n        \n        .column \x7b\n            padding: 0 10px;\n        \x7d\n    "
  ++ "    \n        .code-block \x7b\n            background: #2c3e50;\n            border-radius: 8px;\n "
  ++ "           padding: 20px;\n            margin: 15px 0;\n            overflow-x: auto;\n        \x7d\n"
  ++ "        \n        .code-block pre \x7b\n            color: #ecf0f1;\n            font-family: \x27Co"
  ++ "nsolas\x27, \x27Monaco\x27, \x27Courier New\x27, monospace;\n            font-size: 0.9em;\n        "
  ++ "    line-height: 1.4;\n        \x7d\n        \n        .code-block code \x7b\n            color: #ec"
  ++ "f0f1;\n        \x7d\n        \n        .highlight-box \x7b\n            background: linear-gradient("
  ++ "135deg, #74b9ff, #0984e3);\n            color: white;\n            padding: 20px;\n            borde"
  ++ "r-radius: 10px;\n            margin: 20px 0;\n            text-align: center;\n            font-weig"
  ++ "ht: 500;\n        \x7d\n        \n        .comparison-table \x7b\n            width: 100%;\n        "
  ++ "    border-collapse: collapse;\n            margin: 20px 0;\n            font-size: 0.95em;\n       "
  ++ " \x7d\n        \n        .comparison-table th \x7b\n            background: #3498db;\n            co"
  ++ "lor: white;\n            padding: 12px;\n            text-align: left;\n            font-weight: 600"
  ++ ";\n        \x7d\n        \n        .comparison-table td \x7b\n            padding: 12px;\n          "
  ++ "  border-bottom: 1px solid #ddd;\n            vertical-align: top;\n        \x7d\n        \n        "
  ++ ".comparison-table tr:nth-child(even) \x7b\n            background: #f8f9fa;\n        \x7d\n        \n"
  ++ "        .comparison-table tr:hover \x7b\n            background: #e3f2fd;\n        \x7d\n        \n "
  ++ "       strong \x7b\n            color: #2c3e50;\n        \x7d\n        \n        em \x7b\n          "
  ++ "  color: #7f8c8d;\n            font-style: italic;\n        \x7d\n        \n        p \x7b\n        "
  ++ "    margin: 10px 0;\n        \x7d\n        \n        @media (max-width: 768px) \x7b\n            .sl"
  ++ "ide-container \x7b\n                padding: 20px;\n                margin: 10px;\n            \x7d\n"
  ++ "            \n            .two-column \x7b\n                grid-template-columns: 1fr;\n           "
  ++ "     gap: 20px;\n            \x7d\n            \n            h1 \x7b\n                font-size: 2em"
  ++ ";\n            \x7d\n            \n            .code-block \x7b\n                font-size: 0.8em;\n"
  ++ "            \x7d\n        \x7d\n    </style>\n    "

/-- Literal template segment 0 of the navigation page f-string (lines 324-642). -/
def navSeg0 : String :=
  "<!DOCTYPE html>\n<html lang=\"en\">\n<head>\n    <meta charset=\"UTF-8\">\n    <meta name=\"viewport"
  ++ "\" content=\"width=device-width, initial-scale=1.0\">\n    <title>"

/-- Code-point comparison `a <= b` of char lists: CPython compares `str`
values lexicographically by code point, which is the order `list.sort()`
uses on the filename list in `discover_slides` (line 243). -/
def charListLe : List Char → List Char → Bool
  | [], _ => true
  | _ :: _, [] => false
  | a :: as, b :: bs =>
    if a.toNat < b.toNat then true
    else if b.toNat < a.toNat then false
    else charListLe as bs

/-- Python string comparison `a <= b`, as a relation on `String`. -/
def pyStrLe (a b : String) : Prop := charListLe a.data b.data = true

instance : DecidableRel pyStrLe := fun a b => by
  unfold pyStrLe; infer_instance

/-- Boolean test that `pre` is a prefix of `l` (by `=` on characters). -/
def listStartsWith : List Char → List Char → Bool
  | [], _ => true
  | _ :: _, [] => false
  | a :: as, b :: bs => a == b && listStartsWith as bs

/-- Python `s.endswith(suf)`. -/
def pyEndsWith (s suf : String) : Bool :=
  listStartsWith suf.data.reverse s.data.reverse

/-- Python substring test `needle in hay` on char lists. -/
def listContainsSub : List Char → List Char → Bool
  | [], needle => needle.isEmpty
  | hay@(_ :: t), needle => listStartsWith needle hay || listContainsSub t needle

/-- Python `sub in s` for strings (used for the `"Appendix" in content`
check on line 266). -/
def pyContains (s sub : String) : Bool := listContainsSub s.data sub.data

/-- Regex class `\d`, modelled as the ASCII digits `0`-`9`. -/
def pyIsDigit (c : Char) : Bool := 48 ≤ c.toNat && c.toNat ≤ 57

/-- Python `int(s)` for a string of ASCII digits (the only strings it is
applied to here are the 3-digit `\d{3}` captures, line 282). -/
def pyIntOfDigits (s : String) : Nat :=
  s.data.foldl (fun a c => 10 * a + (c.toNat - 48)) 0

/-- Splits off a literal `.html` suffix, returning the stem. -/
def stripHtmlSuffix (cs : List Char) : Option (List Char) :=
  match cs.reverse with
  | 'l' :: 'm' :: 't' :: 'h' :: '.' :: r => some r.reverse
  | _ => none

/-- Core of Python `re.match(r'^(\d{3})-(.+)\.html$', f)` (line 230/246),
on a string with no trailing newline: three digits, a dash, then a
nonempty group-2 capture that contains no newline (`.` does not match
newline), then the literal `.html` at the end.  Because the pattern is
anchored at both ends, the greedy capture of group 2 is forced to be
exactly the stem between the dash and the final `.html`. -/
def parseCore : List Char → Option (String × String)
  | d1 :: d2 :: d3 :: c :: rest =>
    if pyIsDigit d1 && pyIsDigit d2 && pyIsDigit d3 && c == '-' then
      match stripHtmlSuffix rest with
      | some mid =>
        if !mid.isEmpty && !mid.contains '\n' then
          some (String.mk [d1, d2, d3], String.mk mid)
        else none
      | none => none
    else none
  | _ => none

/-- Python `re.match(r'^(\d{3})-(.+)\.html$', f)`: `$` also matches just
before one trailing newline, so a name ending in `'\n'` is matched against
its last character stripped.  Returns `(group 1, group 2)`. -/
def slidePatternMatch (f : String) : Option (String × String) :=
  match f.data.getLast? with
  | some c => if c = '\n' then parseCore f.data.dropLast else parseCore f.data
  | none => none

/-- Python `str.replace(old, new)` on char lists: every non-overlapping
occurrence, scanned left to right.  The patterns used by the program are
all nonempty; an empty `old` is treated as no-op (CPython instead inserts
`new` at every position, a case the program never exercises). -/
def listReplaceAux (old new : List Char) : Nat → List Char → List Char
  | _, [] => []
  | 0, l => l
  | fuel + 1, c :: rest =>
    if !old.isEmpty && old.isPrefixOf (c :: rest) then
      new ++ listReplaceAux old new fuel (rest.drop (old.length - 1))
    else
      c :: listReplaceAux old new fuel rest

/-- Entry point of the replace scan; the fuel (one unit per character
consumed) starts at the list length, which the scan never exceeds. -/
def listReplace (old new l : List Char) : List Char :=
  listReplaceAux old new l.length l

/-- Python `str.title()` (ASCII): a cased (alphabetic) character is
uppercased after an uncased character and lowercased after a cased one. -/
def pyTitleCaseAux : Bool → List Char → List Char
  | _, [] => []
  | prevCased, c :: rest =>
    (if c.isAlpha then (if prevCased then c.toLower else c.toUpper) else c)
      :: pyTitleCaseAux c.isAlpha rest

/-- The slug-derived fallback title of line 252:
`title_slug.replace('-', ' ').replace('and', '&').title()`. -/
def slugTitle (slug : String) : String :=
  String.mk (pyTitleCaseAux false
    (listReplace "and".data "&".data (listReplace "-".data " ".data slug.data)))

/-- Regex class `\s` (ASCII whitespace, as matched by CPython on ASCII
text). -/
def isPySpace (c : Char) : Bool :=
  c == ' ' || c == '\t' || c == '\n' || c == '\r' || c == '\x0b' || c == '\x0c'

/-- Lazy group `(.+?)` immediately followed by the literal `</title>`:
returns the shortest nonempty newline-free capture. -/
def capLazy : List Char → Option (List Char)
  | [] => none
  | c :: rest =>
    if c = '\n' then none
    else if listStartsWith "</title>".data rest then some [c]
    else
      match capLazy rest with
      | some g => some (c :: g)
      | none => none

/-- Greedy `\s*` (with backtracking) followed by `capLazy`. -/
def wsThenCap : List Char → Option (List Char)
  | [] => none
  | c :: rest =>
    if isPySpace c then
      match wsThenCap rest with
      | some g => some g
      | none => capLazy (c :: rest)
    else capLazy (c :: rest)

/-- Lazy `.*?` followed by the literal `-` and then `\s*(.+?)</title>`. -/
def dotLazy : List Char → Option (List Char)
  | [] => none
  | c :: rest =>
    match (if c = '-' then wsThenCap rest else none) with
    | some g => some g
    | none => if c = '\n' then none else dotLazy rest

/-- Attempt to match `<title>.*?-\s*(.+?)</title>` anchored at the start of
`cs`. -/
def tryTitleAt (cs : List Char) : Option (List Char) :=
  if listStartsWith "<title>".data cs then dotLazy (cs.drop 7) else none

/-- Leftmost match: `re.search` scans start positions left to right. -/
def searchTitle : List Char → Option (List Char)
  | [] => none
  | c :: rest =>
    match tryTitleAt (c :: rest) with
    | some g => some g
    | none => searchTitle rest

/-- Group 1 of `re.search(r'<title>.*?-\s*(.+?)</title>', content)`
(line 261). -/
def extractTitle (content : String) : Option String :=
  (searchTitle content.data).map String.mk

/-- One discovered slide (the dict appended on lines 268-273 / 278-283).
The Python dict key `section` is the Lean field `sect` (`section` is a
Lean keyword). -/
structure Slide where
  number : String
  title : String
  filename : String
  sect : String
deriving DecidableEq

/-- The slide record built for one matched filename (`discover_slides`
loop body, lines 245-283): on a successful read the title comes from the
embedded title marker when present (else from the slug) and the section is
`"Appendix"` iff the literal `"Appendix"` occurs in the content; on a read
failure the slug title is kept and the section falls back to the ordinal
test `int(number) > 10`. -/
def buildSlide (read : String → Option String) (filename number slug : String) : Slide :=
  let title0 := slugTitle slug
  match read filename with
  | some content =>
    { number := number
      title := match extractTitle content with | some t => t | none => title0
      filename := filename
      sect := if pyContains content "Appendix" then "Appendix" else "Main" }
  | none =>
    { number := number
      title := title0
      filename := filename
      sect := if 10 < pyIntOfDigits number then "Appendix" else "Main" }

/-- `discover_slides` (lines 227-287).  `dirExists` models the
`slides_dir.exists()` guard; `listing` is the `os.listdir` result (order
irrelevant, see `discover_slides_perm`); `read` models reading a file.
The pre-filter keeps names ending in `.html` other than `index.html`
(line 237); the list is sorted (line 243; CPython `list.sort` is by
code-point order, and since that order is total and antisymmetric the
sorted result is the unique sorted permutation, so any correct sort
models it); then each name is matched against the slide pattern and a
slide record is built, non-matching names being skipped.

The per-filename step of the loop: pattern match (line 246), then the
slide record, `none` for a non-matching name (skipped with a warning,
line 285). -/
def slideOfName (read : String → Option String) (filename : String) : Option Slide :=
  match slidePatternMatch filename with
  | some (number, slug) => some (buildSlide read filename number slug)
  | none => none

/-- The full discovery pass: exists-guard, pre-filter, sort, then the
per-filename loop. -/
def discover_slides (dirExists : Bool) (listing : List String)
    (read : String → Option String) : List Slide :=
  if !dirExists then []
  else
    let html_files := listing.filter (fun f => pyEndsWith f ".html" && f != "index.html")
    if html_files.isEmpty then []
    else
      (html_files.insertionSort pyStrLe).filterMap (slideOfName read)

/-- Python `str.lower()` (ASCII fidelity). -/
def pyLower (s : String) : String := String.mk (s.data.map Char.toLower)

/-- Python `s.replace(old, new)` on strings. -/
def pyReplace (s old new : String) : String :=
  String.mk (listReplace old.data new.data s.data)

/-- Lowercase hex digit, as used by `json.dumps` unicode escapes. -/
def hexDigitChar (n : Nat) : Char :=
  if n < 10 then Char.ofNat (48 + n) else Char.ofNat (87 + n)

/-- Four lowercase hex digits. -/
def hex4 (n : Nat) : String :=
  String.mk [hexDigitChar (n / 4096 % 16), hexDigitChar (n / 256 % 16),
    hexDigitChar (n / 16 % 16), hexDigitChar (n % 16)]

/-- One character of `json.dumps` default (`ensure_ascii=True`) string
escaping: the two-character escapes, `\uXXXX` for other control or
non-ASCII characters (surrogate pairs above U+FFFF), else the character
itself. -/
def jsonEscapeChar (c : Char) : String :=
  if c = '\x22' then "\\\""
  else if c = '\\' then "\\\\"
  else if c = '\n' then "\\n"
  else if c = '\t' then "\\t"
  else if c = '\r' then "\\r"
  else if c = '\x08' then "\\b"
  else if c = '\x0c' then "\\f"
  else if c.toNat < 32 || 126 < c.toNat then
    if c.toNat < 65536 then "\\u" ++ hex4 c.toNat
    else
      "\\u" ++ hex4 (55296 + (c.toNat - 65536) / 1024)
        ++ "\\u" ++ hex4 (56320 + (c.toNat - 65536) % 1024)
  else String.singleton c

/-- `json.dumps` of one string. -/
def pyJsonStr (s : String) : String :=
  "\"" ++ String.join (s.data.map jsonEscapeChar) ++ "\""

/-- `json.dumps` of a list of strings (default separator `", "`). -/
def pyJsonDumps (xs : List String) : String :=
  "[" ++ String.intercalate ", " (xs.map pyJsonStr) ++ "]"

/-- The sidebar entry appended for one slide (the f-string of
lines 310-314). -/
def sidebarSlideItem (pathPfx : String) (i : Nat) (s : Slide) : String :=
  "\n            <div class=\"slide-item " ++ (if i = 0 then "active" else "")
    ++ "\" onclick=\"loadSlide(\x27" ++ (pathPfx ++ s.filename) ++ "\x27, "
    ++ toString i ++ ")\">\n                " ++ s.number ++ ". " ++ s.title
    ++ "\n            </div>\n        "

/-- The section-opening entry appended when the section label changes
(line 305). -/
def sectionOpenItem (sect : String) : String :=
  "<div class=\"section\"><h3>" ++ sect ++ "</h3>"

/-- The `sidebar_items` accumulation loop of lines 292-317: a new section
group is opened (closing the previous one first) exactly when the current
slide's section differs from `current_section`, which afterwards always
holds the current slide's section. -/
def sidebarItemsLoop (pathPfx : String) : List Slide → Nat → Option String → List String
  | [], _, cur => if cur.isSome then ["</div>"] else []
  | s :: rest, i, cur =>
    (if cur ≠ some s.sect then
      (if cur.isSome then ["</div>"] else []) ++ [sectionOpenItem s.sect]
    else [])
      ++ (sidebarSlideItem pathPfx i s :: sidebarItemsLoop pathPfx rest (i + 1) (some s.sect))

/-- The full `sidebar_items` list for a slide list. -/
def sidebar_items (pathPfx : String) (slides : List Slide) : List String :=
  sidebarItemsLoop pathPfx slides 0 none

/-- `create_navigation_html` (lines 289-642): the page template with the
dynamic fields substituted.  `slidesDirName` models `slides_dir.name`. -/
def create_navigation_html (slides : List Slide) (page_title : String)
    (slidesDirName : String) : String :=
  let name := if slidesDirName != "." then slidesDirName else ""
  let pathPfx := if name != "" then name ++ "/" else ""
  let sidebar_html := String.join (sidebar_items pathPfx slides)
  let first_slide :=
    match slides with
    | [] => "index.html"
    | s :: _ => pathPfx ++ s.filename
  navSeg0 ++ page_title ++ navSeg1 ++ page_title ++ navSeg2 ++ sidebar_html
    ++ navSeg3 ++ toString slides.length ++ navSeg4 ++ first_slide
    ++ navSeg5 ++ toString ((slides.length : Int) - 1) ++ navSeg6
    ++ pyJsonDumps (slides.map (fun s => pathPfx ++ s.filename)) ++ navSeg7
    ++ pyJsonDumps (slides.map Slide.filename) ++ navSeg8 ++ page_title
    ++ navSeg9 ++ pyReplace (pyLower page_title) " " "_" ++ navSeg10

/-- Outcome of one `generate` invocation: the bytes written to the output
file (`none` = no file written) and whether the nothing-found message of
line 1150 was printed. -/
structure NavResult where
  output : Option String
  emptyMessage : Bool
deriving DecidableEq

/-- The `generate_navigation` command from the discovery step on
(lines 1147-1163): discovery, the empty check that returns with a message
and no output file, else one write of the assembled page.  The
`--create-samples` seeding of lines 1140-1144 mutates the directory before
this point and is not modelled; claims about empty directories are settled
for invocations without that flag.  Metadata saving (line 1169) is
out of scope. -/
def generate_navigation (dirExists : Bool) (listing : List String)
    (read : String → Option String) (title : String) (slidesDirName : String) : NavResult :=
  let slides := discover_slides dirExists listing read
  if slides.isEmpty then { output := none, emptyMessage := true }
  else { output := some (create_navigation_html slides title slidesDirName),
         emptyMessage := false }

/-- `create_slide_template` (lines 205-225): a falsy `section` (absent or
the empty string) yields no badge. -/
def create_slide_template (title content : String) (sect : Option String) : String :=
  let section_badge :=
    match sect with
    | some s =>
      if s != "" then
        "<div style=\"background: #e74c3c; color: white; padding: 5px 15px; border-radius: 20px;"
          ++ " display: inline-block; margin-bottom: 20px; font-size: 0.9em;\">" ++ s ++ "</div>"
      else ""
    | none => ""
  "<!DOCTYPE html>\n<html lang=\"en\">\n<head>\n    <meta charset=\"UTF-8\">\n"
    ++ "    <meta name=\"viewport\" content=\"width=device-width, initial-scale=1.0\">\n    <title>"
    ++ title ++ "</title>\n    " ++ baseStyles
    ++ "\n</head>\n<body>\n    <div class=\"slide-container\">\n        " ++ section_badge
    ++ "\n        " ++ content ++ "\n    </div>\n</body>\n</html>"

/-- Decimal digits of a natural number, most significant first; the fuel
(one unit per digit, at most one per unit of `n`) starts above `n`. -/
def natToDigits : Nat → Nat → List Char
  | 0, _ => []
  | fuel + 1, n =>
    if n < 10 then [Char.ofNat (48 + n)]
    else natToDigits fuel (n / 10) ++ [Char.ofNat (48 + n % 10)]

/-- Python `str(n)` for a natural number. -/
def pyStrOfNat (n : Nat) : String := String.mk (natToDigits (n + 1) n)

/-- Zero-padding to width `w`. -/
def padZeros (w : Nat) (s : String) : String :=
  if s.length < w then String.mk (List.replicate (w - s.length) '0') ++ s else s

/-- Python `f"{n:03d}"`: total width 3, zero padded, the sign counting
toward the width. -/
def pyFormat03dInt (n : Int) : String :=
  if n < 0 then "-" ++ padZeros 2 (pyStrOfNat n.natAbs)
  else padZeros 3 (pyStrOfNat n.natAbs)

/-- Exceptions that can cross the command boundary. -/
inductive PyError where
  | valueError (msg : String)
  | clickUsage (msg : String)
deriving DecidableEq

/-- Python ASCII whitespace stripping from both ends (`int()` strips
whitespace before parsing). -/
def stripPySpaces (l : List Char) : List Char :=
  ((l.dropWhile isPySpace).reverse.dropWhile isPySpace).reverse

/-- Digit run of an integer literal; a single underscore may stand
between two digits. -/
def parseUIntAux (acc : Nat) : List Char → Option Nat
  | [] => some acc
  | c :: rest =>
    if pyIsDigit c then parseUIntAux (10 * acc + (c.toNat - 48)) rest
    else if c = '_' then
      match rest with
      | d :: rest2 =>
        if pyIsDigit d then parseUIntAux (10 * (10 * acc + (d.toNat - 48)) / 10 + 0) rest2 else none
      | [] => none
    else none

/-- Nonempty digit run (underscores allowed between digits). -/
def parseUInt : List Char → Option Nat
  | [] => none
  | c :: rest => if pyIsDigit c then parseUIntAux (c.toNat - 48) rest else none

/-- Python `int(s)` for base 10: optional surrounding whitespace, optional
sign, then a nonempty digit run; anything else raises `ValueError`. -/
def pyIntParse (s : String) : Option Int :=
  match stripPySpaces s.data with
  | [] => none
  | c :: rest =>
    if c = '+' then (parseUInt rest).map Int.ofNat
    else if c = '-' then (parseUInt rest).map (fun n => -(n : Int))
    else (parseUInt (c :: rest)).map Int.ofNat

/-- The slug built from the title on line 1203:
`title.lower().replace(' ', '-').replace('&', 'and')`. -/
def slideSlug (title : String) : String :=
  pyReplace (pyReplace (pyLower title) " " "-") "&" "and"

/-- The filename generated on line 1203:
`f"{number}-{title.lower().replace(' ', '-').replace('&', 'and')}.html"`. -/
def create_slide_filename (number3 title : String) : String :=
  number3 ++ "-" ++ slideSlug title ++ ".html"

/-- The file written by one `create_slide` invocation. -/
structure CreatedSlide where
  filename : String
  content : String
deriving DecidableEq

/-- The `create_slide` command (lines 1195-1216).  The ordinal option
arrives as a raw string (no `type=int` converter), so the conversion
happens at line 1200 inside the command body; a malformed ordinal raises
`ValueError` there, before anything is written. -/
def create_slide (title content number : String) (sect : Option String) :
    Except PyError CreatedSlide :=
  match pyIntParse number with
  | none => Except.error (PyError.valueError number)
  | some n =>
    let number3 := pyFormat03dInt n
    Except.ok
      { filename := create_slide_filename number3 title
        content := create_slide_template (number3 ++ " - " ++ title) content sect }

/-- How one CLI invocation ends, as observed by the operating system. -/
inductive CliOutcome where
  | ok
  | messageExit (msg : String)
  | crash (err : PyError)
deriving DecidableEq

/-- Click's standalone main loop catches `ClickException`/`UsageError`
(message printed, clean nonzero exit) and `Abort`; every other exception
— in particular a `ValueError` — propagates out of `cli()` and the
interpreter terminates with an unhandled-exception traceback. -/
def cli_invoke {α : Type} (r : Except PyError α) : CliOutcome :=
  match r with
  | Except.ok _ => CliOutcome.ok
  | Except.error (PyError.clickUsage m) => CliOutcome.messageExit m
  | Except.error (PyError.valueError m) => CliOutcome.crash (PyError.valueError m)

/-- Number of maximal runs of equal adjacent elements. -/
def countRuns : List String → Nat
  | [] => 0
  | [_] => 1
  | a :: b :: t => (if a = b then 0 else 1) + countRuns (b :: t)

/-- Recognizes the section-opening sidebar entries. -/
def isSectionOpen (s : String) : Bool :=
  listStartsWith "<div class=\"section\"><h3>".data s.data

/-- The example directory listing of the spec's worked example. -/
def exListing : List String := ["001-intro.html", "011-compare.html"]

/-- Content of `001-intro.html`: a title marker, no occurrence of the
section keyword. -/
def introContent : String := "<title>Prefect - Introduction</title>\n<h1>Welcome</h1>"

/-- Content of `011-compare.html`: a title marker and the keyword
`"Appendix"` in the body. -/
def compareContent : String := "<title>Prefect - Comparison</title>\n<h2>Appendix</h2>"

/-- The example read function. -/
def exRead (f : String) : Option String :=
  if f = "001-intro.html" then some introContent
  else if f = "011-compare.html" then some compareContent
  else none

/-! ### Sanity checks on concrete inputs -/

example : slidePatternMatch "001-intro.html" = some ("001", "intro") := by decide

example : slidePatternMatch "index.html" = none := by decide

example : slidePatternMatch "001-.html" = none := by decide

example : slugTitle "getting-started" = "Getting Started" := by decide

example : extractTitle "<title>Deck - My Slide</title>" = some "My Slide" := by decide

example : extractTitle "<html><head></head>" = none := by decide

example :
    (discover_slides true ["002-b.html", "001-a.html", "notes.txt"]
      (fun _ => none)).map Slide.number = ["001", "002"] := by decide

example : pyJsonDumps ["a", "b"] = "[\"a\", \"b\"]" := by decide

example : pyJsonDumps [] = "[]" := by decide

example : pyFormat03dInt 7 = "007" := by decide

example : pyFormat03dInt 1000 = "1000" := by decide

example : pyIntParse "  42 " = some 42 := by decide

example : pyIntParse "abc" = none := by decide

example :
    (create_slide "Intro" "<p>x</p>" "7" none).toOption.map CreatedSlide.filename
      = some "007-intro.html" := by decide

/-! ### Theorems -/

theorem stringEq_of_dataEq {s t : String} (h : s.data = t.data) : s = t := by
  cases s; cases t; exact congrArg String.mk h

theorem charToNat_inj {a b : Char} (h : a.toNat = b.toNat) : a = b :=
  Char.ext (UInt32.toNat.inj h)

theorem charListLe_cons_iff (x y : Char) (as bs : List Char) :
    charListLe (x :: as) (y :: bs) = true ↔
      x.toNat < y.toNat ∨ (x.toNat = y.toNat ∧ charListLe as bs = true) := by
  simp only [charListLe]
  split_ifs with h1 h2
  · simp only [true_iff]
    exact Or.inl h1
  · simp only [false_iff]
    rintro (h | ⟨h, _⟩) <;> omega
  · have hxy : x.toNat = y.toNat := by omega
    simp [hxy]

theorem charListLe_total : ∀ a b : List Char, charListLe a b = true ∨ charListLe b a = true := by
  intro a
  induction a with
  | nil => intro b; left; rfl
  | cons x as ih =>
    intro b
    cases b with
    | nil => right; rfl
    | cons y bs =>
      rcases Nat.lt_trichotomy x.toNat y.toNat with h | h | h
      · left; rw [charListLe_cons_iff]; exact Or.inl h
      · rcases ih bs with h' | h'
        · left; rw [charListLe_cons_iff]; exact Or.inr ⟨h, h'⟩
        · right; rw [charListLe_cons_iff]; exact Or.inr ⟨h.symm, h'⟩
      · right; rw [charListLe_cons_iff]; exact Or.inl h

theorem charListLe_trans : ∀ a b c : List Char,
    charListLe a b = true → charListLe b c = true → charListLe a c = true := by
  intro a
  induction a with
  | nil => intro b c _ _; rfl
  | cons x as ih =>
    intro b c h1 h2
    cases b with
    | nil => simp [charListLe] at h1
    | cons y bs =>
      cases c with
      | nil => simp [charListLe] at h2
      | cons z cs =>
        rw [charListLe_cons_iff] at h1 h2 ⊢
        rcases h1 with h1 | ⟨h1e, h1r⟩
        · rcases h2 with h2 | ⟨h2e, _⟩
          · exact Or.inl (by omega)
          · exact Or.inl (by omega)
        · rcases h2 with h2 | ⟨h2e, h2r⟩
          · exact Or.inl (by omega)
          · exact Or.inr ⟨by omega, ih bs cs h1r h2r⟩

theorem charListLe_antisymm : ∀ a b : List Char,
    charListLe a b = true → charListLe b a = true → a = b := by
  intro a
  induction a with
  | nil =>
    intro b _ h2
    cases b with
    | nil => rfl
    | cons y bs => simp [charListLe] at h2
  | cons x as ih =>
    intro b h1 h2
    cases b with
    | nil => simp [charListLe] at h1
    | cons y bs =>
      rw [charListLe_cons_iff] at h1 h2
      rcases h1 with h1 | ⟨h1e, h1r⟩
      · rcases h2 with h2 | ⟨h2e, _⟩ <;> omega
      · rcases h2 with h2 | ⟨h2e, h2r⟩
        · omega
        · rw [charToNat_inj h1e, ih bs h1r h2r]

instance : IsTotal String pyStrLe := ⟨fun a b => charListLe_total a.data b.data⟩

instance : IsTrans String pyStrLe :=
  ⟨fun a b c h1 h2 => charListLe_trans a.data b.data c.data h1 h2⟩

instance : IsAntisymm String pyStrLe :=
  ⟨fun a b h1 h2 => stringEq_of_dataEq (charListLe_antisymm a.data b.data h1 h2)⟩

theorem discover_slides_eq (listing : List String) (read : String → Option String) :
    discover_slides true listing read =
      ((listing.filter fun f => pyEndsWith f ".html" && f != "index.html").insertionSort
        pyStrLe).filterMap (slideOfName read) := by
  unfold discover_slides
  simp only [Bool.not_true, Bool.false_eq_true, if_false]
  split
  · next hEmpty =>
    rw [List.isEmpty_iff] at hEmpty
    rw [hEmpty]
    rfl
  · rfl

theorem listStartsWith_self_append : ∀ l m : List Char, listStartsWith l (l ++ m) = true := by
  intro l
  induction l with
  | nil => intro m; rfl
  | cons a as ih => intro m; simp [listStartsWith, ih]

theorem stripHtmlSuffix_eq {cs mid : List Char} (h : stripHtmlSuffix cs = some mid) :
    cs = mid ++ ".html".data := by
  unfold stripHtmlSuffix at h
  split at h
  · next r heq =>
    injection h with h'
    subst h'
    have h2 := congrArg List.reverse heq
    simp only [List.reverse_reverse, List.reverse_cons] at h2
    rw [h2]
    have hd : ".html".data = ['.', 'h', 't', 'm', 'l'] := by decide
    rw [hd]
    simp [List.append_assoc]
  · exact absurd h (by simp)

theorem stripHtmlSuffix_append (l : List Char) : stripHtmlSuffix (l ++ ".html".data) = some l := by
  unfold stripHtmlSuffix
  have hd : ".html".data = ['.', 'h', 't', 'm', 'l'] := by decide
  rw [hd, List.reverse_append]
  simp

theorem parseCore_shape {cs : List Char} {n slug : String} (h : parseCore cs = some (n, slug)) :
    ∃ d1 d2 d3, cs = d1 :: d2 :: d3 :: '-' :: (slug.data ++ ".html".data) ∧
      pyIsDigit d1 = true ∧ pyIsDigit d2 = true ∧ pyIsDigit d3 = true ∧
      n = String.mk [d1, d2, d3] ∧ slug.data ≠ [] ∧ '\n' ∉ slug.data := by
  match cs with
  | [] => exact absurd h (by simp [parseCore])
  | [d1] => exact absurd h (by simp [parseCore])
  | [d1, d2] => exact absurd h (by simp [parseCore])
  | [d1, d2, d3] => exact absurd h (by simp [parseCore])
  | d1 :: d2 :: d3 :: c :: rest =>
    refine ⟨d1, d2, d3, ?_⟩
    simp only [parseCore] at h
    split_ifs at h with hd
    simp only [Bool.and_eq_true, beq_iff_eq] at hd
    obtain ⟨⟨⟨h1, h2⟩, h3⟩, hc⟩ := hd
    subst hc
    split at h
    · next mid hmid =>
      split_ifs at h with hm
      simp only [Bool.and_eq_true, Bool.not_eq_true'] at hm
      obtain ⟨hne, hnl⟩ := hm
      injection h with h'
      obtain ⟨hn, hslug⟩ := Prod.mk.injEq .. ▸ h'
      have hrest := stripHtmlSuffix_eq hmid
      have hdata : slug.data = mid := by rw [← hslug]
      refine ⟨?_, h1, h2, h3, hn.symm, ?_, ?_⟩
      · rw [hrest, hdata]
      · rw [hdata]; exact List.isEmpty_eq_false.mp hne
      · rw [hdata]; simpa using hnl
    · exact absurd h (by simp)

theorem parseCore_construct {d1 d2 d3 : Char} {slug : List Char}
    (h1 : pyIsDigit d1 = true) (h2 : pyIsDigit d2 = true) (h3 : pyIsDigit d3 = true)
    (hne : slug ≠ []) (hnl : '\n' ∉ slug) :
    parseCore (d1 :: d2 :: d3 :: '-' :: (slug ++ ".html".data)) =
      some (String.mk [d1, d2, d3], String.mk slug) := by
  simp only [parseCore]
  rw [stripHtmlSuffix_append]
  simp [h1, h2, h3, hne, hnl]

theorem pyEndsWith_html {f : String} {A : List Char} (h : f.data = A ++ ".html".data) :
    pyEndsWith f ".html" = true := by
  unfold pyEndsWith
  rw [h, List.reverse_append]
  exact listStartsWith_self_append _ _

theorem ne_index_of_parseCore {f : String} {p : String × String}
    (h : parseCore f.data = some p) : (f != "index.html") = true := by
  refine bne_iff_ne.mpr ?_
  intro hf
  subst hf
  have hnone : parseCore "index.html".data = none := by decide
  rw [hnone] at h
  cases h

theorem slidePatternMatch_eq_parseCore {f : String} {A : List Char}
    (h : f.data = A ++ ".html".data) : slidePatternMatch f = parseCore f.data := by
  have hd : ".html".data = ['.', 'h', 't', 'm', 'l'] := by decide
  have h2 : f.data = (A ++ ['.', 'h', 't', 'm']) ++ ['l'] := by
    rw [h, hd]; simp [List.append_assoc]
  have hlast : f.data.getLast? = some 'l' := by
    rw [h2]; exact List.getLast?_concat _
  unfold slidePatternMatch
  rw [hlast]
  show (if ('l' : Char) = '\n' then parseCore f.data.dropLast else parseCore f.data)
    = parseCore f.data
  rw [if_neg (by decide : ¬ ('l' : Char) = '\n')]

theorem discovery_keeps {f n slug : String} (h : parseCore f.data = some (n, slug)) :
    (pyEndsWith f ".html" && f != "index.html") = true ∧
      slidePatternMatch f = some (n, slug) := by
  obtain ⟨d1, d2, d3, hshape, _, _, _, _, _, _⟩ := parseCore_shape h
  have hA : f.data = (d1 :: d2 :: d3 :: '-' :: slug.data) ++ ".html".data := by
    rw [hshape]; simp
  refine ⟨?_, ?_⟩
  · rw [Bool.and_eq_true]
    exact ⟨pyEndsWith_html hA, ne_index_of_parseCore h⟩
  · rw [slidePatternMatch_eq_parseCore hA, h]

theorem buildSlide_filename (read : String → Option String) (f n slug : String) :
    (buildSlide read f n slug).filename = f := by
  unfold buildSlide
  cases read f <;> rfl

theorem mem_discover {listing : List String} {read : String → Option String} {s : Slide}
    (h : s ∈ discover_slides true listing read) :
    ∃ n slug, slidePatternMatch s.filename = some (n, slug) ∧
      s = buildSlide read s.filename n slug ∧ s.filename ∈ listing := by
  rw [discover_slides_eq, List.mem_filterMap] at h
  obtain ⟨f, hf, hsf⟩ := h
  unfold slideOfName at hsf
  split at hsf
  · next n slug heq =>
    injection hsf with hs
    have hfn : s.filename = f := by rw [← hs, buildSlide_filename]
    have hmem : f ∈ listing := by
      rw [(List.perm_insertionSort _ _).mem_iff, List.mem_filter] at hf
      exact hf.1
    exact ⟨n, slug, by rw [hfn]; exact heq, by rw [hfn]; exact hs.symm, hfn ▸ hmem⟩
  · cases hsf

theorem discover_contains {listing : List String} {read : String → Option String}
    {f n slug : String} (hmem : f ∈ listing) (h : parseCore f.data = some (n, slug)) :
    buildSlide read f n slug ∈ discover_slides true listing read := by
  rw [discover_slides_eq, List.mem_filterMap]
  refine ⟨f, ?_, ?_⟩
  · rw [(List.perm_insertionSort _ _).mem_iff, List.mem_filter]
    exact ⟨hmem, (discovery_keeps h).1⟩
  · unfold slideOfName
    rw [(discovery_keeps h).2]

theorem buildSlide_sect_read {read : String → Option String} {f c : String} (n slug : String)
    (hc : read f = some c) :
    (buildSlide read f n slug).sect =
      (if pyContains c "Appendix" then "Appendix" else "Main") := by
  unfold buildSlide
  rw [hc]

theorem buildSlide_sect_err {read : String → Option String} {f : String} (n slug : String)
    (hc : read f = none) :
    (buildSlide read f n slug).sect =
      (if 10 < pyIntOfDigits n then "Appendix" else "Main") := by
  unfold buildSlide
  rw [hc]

theorem buildSlide_title_read {read : String → Option String} {f c : String} (n slug : String)
    (hc : read f = some c) :
    (buildSlide read f n slug).title = (extractTitle c).getD (slugTitle slug) := by
  unfold buildSlide
  rw [hc]
  cases hext : extractTitle c <;> simp [hext]

theorem buildSlide_title_err {read : String → Option String} {f : String} (n slug : String)
    (hc : read f = none) :
    (buildSlide read f n slug).title = slugTitle slug := by
  unfold buildSlide
  rw [hc]

/-- C2: every slide discovered from a readable file is classified
`"Appendix"` exactly when the literal string `"Appendix"` occurs in the
file content, `"Main"` otherwise, and the section is always one of these
two values. -/
theorem discover_slides_section_keyword (listing : List String)
    (read : String → Option String) :
    ∀ s ∈ discover_slides true listing read, ∀ c, read s.filename = some c →
      s.sect = (if pyContains c "Appendix" then "Appendix" else "Main") ∧
      (s.sect = "Main" ∨ s.sect = "Appendix") := by
  intro s hs c hc
  obtain ⟨n, slug, _, hbuild, _⟩ := mem_discover hs
  have h1 : s.sect = (if pyContains c "Appendix" then "Appendix" else "Main") := by
    have := @buildSlide_sect_read read s.filename c n slug hc
    rw [← hbuild] at this
    exact this
  refine ⟨h1, ?_⟩
  rw [h1]
  by_cases hca : pyContains c "Appendix" = true <;> simp [hca]

/-- C2 witness: a concrete readable file containing the keyword. -/
theorem discover_slides_section_keyword_witness :
    (⟨"011", "A", "011-a.html", "Appendix"⟩ : Slide) ∈
        discover_slides true ["011-a.html"] (fun _ => some "<p>Appendix</p>") ∧
      ((⟨"011", "A", "011-a.html", "Appendix"⟩ : Slide).sect =
          (if pyContains "<p>Appendix</p>" "Appendix" then "Appendix" else "Main") ∧
        ((⟨"011", "A", "011-a.html", "Appendix"⟩ : Slide).sect = "Main" ∨
          (⟨"011", "A", "011-a.html", "Appendix"⟩ : Slide).sect = "Appendix")) :=
  ⟨by decide,
    discover_slides_section_keyword ["011-a.html"] (fun _ => some "<p>Appendix</p>")
      ⟨"011", "A", "011-a.html", "Appendix"⟩ (by decide) "<p>Appendix</p>" rfl⟩

/-- C3: a matched but unreadable file still yields a slide entry, with the
slug-derived title and the section decided by the ordinal threshold
`int(number) > 10`. -/
theorem discover_slides_unreadable_fallback {listing : List String}
    {read : String → Option String} {f n slug : String}
    (hmem : f ∈ listing) (hp : parseCore f.data = some (n, slug))
    (hread : read f = none) :
    ∃ s ∈ discover_slides true listing read, s.filename = f ∧ s.title = slugTitle slug ∧
      s.sect = (if 10 < pyIntOfDigits n then "Appendix" else "Main") := by
  exact ⟨buildSlide read f n slug, discover_contains hmem hp,
    buildSlide_filename read f n slug, buildSlide_title_err n slug hread,
    buildSlide_sect_err n slug hread⟩

/-- C3 witness: a concrete unreadable matched file with ordinal 11. -/
theorem discover_slides_unreadable_fallback_witness :
    ("011-x.html" ∈ ["011-x.html"] ∧
        parseCore "011-x.html".data = some ("011", "x") ∧
        (fun (_ : String) => (none : Option String)) "011-x.html" = none) ∧
      ∃ s ∈ discover_slides true ["011-x.html"] (fun _ => none), s.filename = "011-x.html" ∧
        s.title = slugTitle "x" ∧
        s.sect = (if 10 < pyIntOfDigits "011" then "Appendix" else "Main") :=
  ⟨⟨by decide, by decide, rfl⟩,
    discover_slides_unreadable_fallback (by decide) (by decide) rfl⟩

/-- C8: the discovered title comes from the embedded title marker when the
file is readable and the marker is present, and falls back to the
slug-derived title when the marker is absent or the file is unreadable. -/
theorem discover_slides_title_source (listing : List String)
    (read : String → Option String) :
    ∀ s ∈ discover_slides true listing read, ∀ n slug,
      slidePatternMatch s.filename = some (n, slug) →
      (∀ c, read s.filename = some c →
          s.title = (extractTitle c).getD (slugTitle slug)) ∧
      (read s.filename = none → s.title = slugTitle slug) := by
  intro s hs n slug hm
  obtain ⟨n', slug', hm', hbuild, _⟩ := mem_discover hs
  rw [hm] at hm'
  injection hm' with hpair
  obtain ⟨hn, hslug⟩ := Prod.mk.injEq .. ▸ hpair
  subst hn hslug
  constructor
  · intro c hc
    have := @buildSlide_title_read read s.filename c n slug hc
    rw [← hbuild] at this
    exact this
  · intro hc
    have := @buildSlide_title_err read s.filename n slug hc
    rw [← hbuild] at this
    exact this

/-- C8 witness: a concrete readable file with a title marker. -/
theorem discover_slides_title_source_witness :
    (⟨"001", "Intro", "001-a.html", "Main"⟩ : Slide) ∈
        discover_slides true ["001-a.html"] (fun _ => some "<title>Deck - Intro</title>") ∧
      ((∀ c, (fun (_ : String) => some "<title>Deck - Intro</title>") "001-a.html" = some c →
          (⟨"001", "Intro", "001-a.html", "Main"⟩ : Slide).title =
            (extractTitle c).getD (slugTitle "a")) ∧
        ((fun (_ : String) => some "<title>Deck - Intro</title>") "001-a.html" = none →
          (⟨"001", "Intro", "001-a.html", "Main"⟩ : Slide).title = slugTitle "a")) :=
  ⟨by decide,
    discover_slides_title_source ["001-a.html"] (fun _ => some "<title>Deck - Intro</title>")
      ⟨"001", "Intro", "001-a.html", "Main"⟩ (by decide) "001" "a" (by decide)⟩

/-- C4: a directory with zero filenames matching the slide pattern yields
no output file and the empty-result message; `generate_navigation` is a
total function of its inputs, so no exception escapes. -/
theorem generate_navigation_empty (dirExists : Bool) (listing : List String)
    (read : String → Option String) (title dirName : String)
    (h : listing.countP (fun f => (slidePatternMatch f).isSome) = 0) :
    generate_navigation dirExists listing read title dirName =
      { output := none, emptyMessage := true } := by
  have hdisc : discover_slides dirExists listing read = [] := by
    cases dirExists with
    | false => rfl
    | true =>
      rw [discover_slides_eq, List.filterMap_eq_nil_iff]
      intro f hf
      have hmem : f ∈ listing := by
        rw [(List.perm_insertionSort _ _).mem_iff, List.mem_filter] at hf
        exact hf.1
      have hz := List.countP_eq_zero.mp h f hmem
      unfold slideOfName
      cases hsp : slidePatternMatch f with
      | none => rfl
      | some p => rw [hsp] at hz; simp at hz
  unfold generate_navigation
  rw [hdisc]
  rfl

/-- C4 witness: a directory with an unrelated file and the reserved output
name only. -/
theorem generate_navigation_empty_witness :
    (["notes.txt", "index.html"].countP (fun f => (slidePatternMatch f).isSome) = 0) ∧
      generate_navigation true ["notes.txt", "index.html"] (fun _ => none) "Deck" "slides" =
        { output := none, emptyMessage := true } :=
  ⟨by decide,
    generate_navigation_empty true ["notes.txt", "index.html"] (fun _ => none) "Deck" "slides"
      (by decide)⟩

/-- C5: the generated navigation page is a deterministic function of the
directory content and title, independent of the order in which the
filesystem lists the files: permuting the listing changes neither the
discovered slide list nor one byte of the assembled page. -/
theorem generate_navigation_deterministic (dirExists : Bool) {l1 l2 : List String}
    (read : String → Option String) (title dirName : String) (hperm : l1.Perm l2) :
    create_navigation_html (discover_slides dirExists l1 read) title dirName =
        create_navigation_html (discover_slides dirExists l2 read) title dirName ∧
      generate_navigation dirExists l1 read title dirName =
        generate_navigation dirExists l2 read title dirName := by
  have hd : discover_slides dirExists l1 read = discover_slides dirExists l2 read := by
    cases dirExists with
    | false => rfl
    | true =>
      rw [discover_slides_eq, discover_slides_eq]
      congr 1
      apply List.eq_of_perm_of_sorted (r := pyStrLe)
      · exact ((List.perm_insertionSort _ _).trans (hperm.filter _)).trans
          (List.perm_insertionSort _ _).symm
      · exact List.sorted_insertionSort _ _
      · exact List.sorted_insertionSort _ _
  constructor
  · rw [hd]
  · unfold generate_navigation
    rw [hd]

/-- C5 witness: two listing orders of the same concrete directory. -/
theorem generate_navigation_deterministic_witness :
    (["002-b.html", "001-a.html", "x.txt"].Perm ["x.txt", "001-a.html", "002-b.html"]) ∧
      (create_navigation_html
          (discover_slides true ["002-b.html", "001-a.html", "x.txt"] (fun _ => none))
          "Deck" "slides" =
        create_navigation_html
          (discover_slides true ["x.txt", "001-a.html", "002-b.html"] (fun _ => none))
          "Deck" "slides" ∧
      generate_navigation true ["002-b.html", "001-a.html", "x.txt"] (fun _ => none)
          "Deck" "slides" =
        generate_navigation true ["x.txt", "001-a.html", "002-b.html"] (fun _ => none)
          "Deck" "slides") :=
  ⟨by decide,
    generate_navigation_deterministic true (fun _ => none) "Deck" "slides" (by decide)⟩

theorem listStartsWith_append_of_le :
    ∀ (p l m : List Char), p.length ≤ l.length →
      listStartsWith p (l ++ m) = listStartsWith p l := by
  intro p
  induction p with
  | nil => intro l m _; rfl
  | cons a as ih =>
    intro l m hlen
    cases l with
    | nil => simp at hlen
    | cons b bs =>
      simp only [List.cons_append, listStartsWith, List.append_eq]
      rw [ih bs m (by simpa using hlen)]

theorem isSectionOpen_open (sect : String) : isSectionOpen (sectionOpenItem sect) = true := by
  unfold isSectionOpen sectionOpenItem
  simp only [String.data_append, List.append_assoc]
  exact listStartsWith_self_append _ _

theorem isSectionOpen_item (pathPfx : String) (i : Nat) (s : Slide) :
    isSectionOpen (sidebarSlideItem pathPfx i s) = false := by
  unfold isSectionOpen sidebarSlideItem
  simp only [String.data_append, List.append_assoc]
  rw [listStartsWith_append_of_le _ _ _ (by decide)]
  decide

theorem isSectionOpen_close : isSectionOpen "</div>" = false := by decide

theorem countRuns_pos : ∀ (a : String) (l : List String), 1 ≤ countRuns (a :: l) := by
  intro a l
  induction l generalizing a with
  | nil => simp [countRuns]
  | cons b t ih =>
    have := ih b
    simp only [countRuns]
    omega

theorem sidebarItemsLoop_count_some (pathPfx : String) :
    ∀ (slides : List Slide) (i : Nat) (c : String),
      (sidebarItemsLoop pathPfx slides i (some c)).countP isSectionOpen =
        countRuns (c :: slides.map Slide.sect) - 1 := by
  intro slides
  induction slides with
  | nil =>
    intro i c
    simp [sidebarItemsLoop, countRuns, List.countP_cons, isSectionOpen_close]
  | cons s rest ih =>
    intro i c
    simp only [sidebarItemsLoop, List.map_cons]
    by_cases hcs : c = s.sect
    · subst hcs
      rw [if_neg (by simp)]
      have hruns : countRuns (s.sect :: s.sect :: rest.map Slide.sect) =
          countRuns (s.sect :: rest.map Slide.sect) := by
        simp [countRuns]
      simp [List.countP_cons, isSectionOpen_item, ih, hruns]
    · rw [if_pos (by simp [hcs])]
      have hpos := countRuns_pos s.sect (rest.map Slide.sect)
      have hruns : countRuns (c :: s.sect :: rest.map Slide.sect) =
          1 + countRuns (s.sect :: rest.map Slide.sect) := by
        simp [countRuns, hcs]
      simp [List.countP_cons, List.countP_append, isSectionOpen_close, isSectionOpen_open,
        isSectionOpen_item, ih, hruns]
      omega

/-- C6: the sidebar opens one labeled section group per maximal run of
equal adjacent sections in the sorted slide list; non-adjacent runs of the
same label therefore each get their own group. -/
theorem sidebar_section_groups_eq_runs (pathPfx : String) (slides : List Slide) :
    (sidebar_items pathPfx slides).countP isSectionOpen =
      countRuns (slides.map Slide.sect) := by
  cases slides with
  | nil => rfl
  | cons s rest =>
    unfold sidebar_items
    simp only [sidebarItemsLoop, List.map_cons]
    rw [if_pos (by simp)]
    have hloop := sidebarItemsLoop_count_some pathPfx rest 1 s.sect
    have hpos := countRuns_pos s.sect (rest.map Slide.sect)
    simp [List.countP_cons, List.countP_append, isSectionOpen_open, isSectionOpen_item, hloop]
    omega

/-- C7: on the worked example directory, discovery yields exactly
(001, Main) then (011, Appendix), the sidebar has exactly two section
groups, and the filename array embedded in the navigation script is
`["001-intro.html", "011-compare.html"]`. -/
theorem example_deck_discovery :
    (discover_slides true exListing exRead).map (fun s => (s.number, s.sect)) =
        [("001", "Main"), ("011", "Appendix")] ∧
      (discover_slides true exListing exRead).map Slide.filename =
        ["001-intro.html", "011-compare.html"] ∧
      (sidebar_items "" (discover_slides true exListing exRead)).countP isSectionOpen = 2 ∧
      pyJsonDumps ((discover_slides true exListing exRead).map Slide.filename) =
        "[\"001-intro.html\", \"011-compare.html\"]" := by
  decide

theorem pyIsDigit_bounds {c : Char} (h : pyIsDigit c = true) : 48 ≤ c.toNat ∧ c.toNat ≤ 57 := by
  simpa [pyIsDigit, Bool.and_eq_true, decide_eq_true_eq] using h

theorem pyIntOfDigits3 (a b c : Char) :
    pyIntOfDigits (String.mk [a, b, c]) =
      10 * (10 * (a.toNat - 48) + (b.toNat - 48)) + (c.toNat - 48) := by
  simp [pyIntOfDigits, List.foldl]

theorem numle_of_charListLe {a1 a2 a3 b1 b2 b3 : Char} {u v : List Char}
    (ha1 : pyIsDigit a1 = true) (ha2 : pyIsDigit a2 = true) (ha3 : pyIsDigit a3 = true)
    (hb1 : pyIsDigit b1 = true) (hb2 : pyIsDigit b2 = true) (hb3 : pyIsDigit b3 = true)
    (h : charListLe (a1 :: a2 :: a3 :: u) (b1 :: b2 :: b3 :: v) = true) :
    pyIntOfDigits (String.mk [a1, a2, a3]) ≤ pyIntOfDigits (String.mk [b1, b2, b3]) := by
  obtain ⟨ha1l, ha1r⟩ := pyIsDigit_bounds ha1
  obtain ⟨ha2l, ha2r⟩ := pyIsDigit_bounds ha2
  obtain ⟨ha3l, ha3r⟩ := pyIsDigit_bounds ha3
  obtain ⟨hb1l, hb1r⟩ := pyIsDigit_bounds hb1
  obtain ⟨hb2l, hb2r⟩ := pyIsDigit_bounds hb2
  obtain ⟨hb3l, hb3r⟩ := pyIsDigit_bounds hb3
  rw [pyIntOfDigits3, pyIntOfDigits3]
  rw [charListLe_cons_iff] at h
  rcases h with h1 | ⟨h1, h⟩
  · omega
  · rw [charListLe_cons_iff] at h
    rcases h with h2 | ⟨h2, h⟩
    · omega
    · rw [charListLe_cons_iff] at h
      rcases h with h3 | ⟨h3, _⟩ <;> omega

theorem pairwise_filterMap_of {α β : Type} (g : α → Option β) {R : α → α → Prop}
    {S : β → β → Prop}
    (hRS : ∀ a b x y, R a b → g a = some x → g b = some y → S x y) :
    ∀ l : List α, l.Pairwise R → (l.filterMap g).Pairwise S := by
  intro l
  induction l with
  | nil => intro _; simp
  | cons a t ih =>
    intro hp
    rw [List.pairwise_cons] at hp
    obtain ⟨hhead, htail⟩ := hp
    rw [List.filterMap_cons]
    cases hga : g a with
    | none => exact ih htail
    | some x =>
      rw [List.pairwise_cons]
      refine ⟨?_, ih htail⟩
      intro y hy
      rw [List.mem_filterMap] at hy
      obtain ⟨b, hb, hgb⟩ := hy
      exact hRS a b x y (hhead b hb) hga hgb

theorem length_filterMap_of_isSome {α β : Type} (g : α → Option β) :
    ∀ l : List α, (∀ x ∈ l, (g x).isSome = true) → (l.filterMap g).length = l.length := by
  intro l
  induction l with
  | nil => intro _; rfl
  | cons a t ih =>
    intro hall
    rw [List.filterMap_cons]
    cases hga : g a with
    | none =>
      have := hall a (by simp)
      rw [hga] at this
      simp at this
    | some x =>
      simp only [List.length_cons]
      rw [ih (fun x hx => hall x (by simp [hx]))]

theorem slideOfName_eq {read : String → Option String} {f : String} {s : Slide}
    (h : slideOfName read f = some s) :
    ∃ n slug, slidePatternMatch f = some (n, slug) ∧ s = buildSlide read f n slug := by
  unfold slideOfName at h
  split at h
  · next n slug heq =>
    injection h with h'
    exact ⟨n, slug, heq, h'.symm⟩
  · cases h

theorem buildSlide_number (read : String → Option String) (f n slug : String) :
    (buildSlide read f n slug).number = n := by
  unfold buildSlide
  cases read f <;> rfl

theorem slidePatternMatch_shape {f n slug : String}
    (h : slidePatternMatch f = some (n, slug)) :
    ∃ d1 d2 d3 u, f.data = d1 :: d2 :: d3 :: u ∧ pyIsDigit d1 = true ∧ pyIsDigit d2 = true ∧
      pyIsDigit d3 = true ∧ n = String.mk [d1, d2, d3] := by
  unfold slidePatternMatch at h
  split at h
  · next c heq =>
    split_ifs at h with hch
    · obtain ⟨d1, d2, d3, hshape, h1, h2, h3, hn, _, _⟩ := parseCore_shape h
      have hne : f.data ≠ [] := by
        intro h0
        rw [h0] at heq
        cases heq
      have hsplit := List.dropLast_append_getLast hne
      refine ⟨d1, d2, d3, '-' :: (slug.data ++ ".html".data) ++ [f.data.getLast hne], ?_,
        h1, h2, h3, hn⟩
      conv_lhs => rw [← hsplit, hshape]
      simp
    · obtain ⟨d1, d2, d3, hshape, h1, h2, h3, hn, _, _⟩ := parseCore_shape h
      exact ⟨d1, d2, d3, _, hshape, h1, h2, h3, hn⟩
  · cases h

/-- C1: when every file of the directory is a well-formed slide filename,
discovery returns one slide per filename matching the pattern, the slides
are ordered by ascending numeric value of the 3-digit ordinal, and every
returned slide comes from a filename matching the pattern. -/
theorem discover_slides_complete_and_ordered (listing : List String)
    (read : String → Option String)
    (h : ∀ f ∈ listing, (parseCore f.data).isSome = true) :
    (discover_slides true listing read).length =
        (listing.filter fun f => (slidePatternMatch f).isSome).length ∧
      List.Chain' (fun a b => pyIntOfDigits a.number ≤ pyIntOfDigits b.number)
        (discover_slides true listing read) ∧
      ∀ s ∈ discover_slides true listing read, (slidePatternMatch s.filename).isSome = true := by
  have hkeep : ∀ f ∈ listing, (pyEndsWith f ".html" && f != "index.html") = true ∧
      slidePatternMatch f = parseCore f.data ∧ (slidePatternMatch f).isSome = true := by
    intro f hf
    obtain ⟨p, hp⟩ := Option.isSome_iff_exists.mp (h f hf)
    rcases p with ⟨n, slug⟩
    have hk := discovery_keeps hp
    exact ⟨hk.1, by rw [hk.2, hp], by rw [hk.2]; rfl⟩
  have hfilter_eq : listing.filter (fun f => pyEndsWith f ".html" && f != "index.html") =
      listing := List.filter_eq_self.mpr (fun f hf => (hkeep f hf).1)
  have hfilter2 : (listing.filter fun f => (slidePatternMatch f).isSome) = listing :=
    List.filter_eq_self.mpr (fun f hf => (hkeep f hf).2.2)
  have hsorted_mem : ∀ f ∈ listing.insertionSort pyStrLe, f ∈ listing := fun f hf =>
    (List.perm_insertionSort _ _).mem_iff.mp hf
  rw [discover_slides_eq, hfilter_eq, hfilter2]
  refine ⟨?_, ?_, ?_⟩
  · rw [length_filterMap_of_isSome]
    · exact (List.perm_insertionSort _ _).length_eq
    · intro f hf
      have hm := (hkeep f (hsorted_mem f hf)).2.2
      obtain ⟨p, hp⟩ := Option.isSome_iff_exists.mp hm
      rcases p with ⟨n, slug⟩
      unfold slideOfName
      rw [hp]
      rfl
  · apply List.Pairwise.chain'
    apply pairwise_filterMap_of (g := slideOfName read) ?_ _ (List.sorted_insertionSort _ _)
    intro a b x y hab hga hgb
    obtain ⟨n1, slug1, hm1, hx⟩ := slideOfName_eq hga
    obtain ⟨n2, slug2, hm2, hy⟩ := slideOfName_eq hgb
    obtain ⟨d1, d2, d3, u, hda, ha1, ha2, ha3, hn1⟩ := slidePatternMatch_shape hm1
    obtain ⟨e1, e2, e3, v, hdb, hb1, hb2, hb3, hn2⟩ := slidePatternMatch_shape hm2
    have hle : charListLe (d1 :: d2 :: d3 :: u) (e1 :: e2 :: e3 :: v) = true := by
      have : charListLe a.data b.data = true := hab
      rw [hda, hdb] at this
      exact this
    have := numle_of_charListLe ha1 ha2 ha3 hb1 hb2 hb3 hle
    rw [hx, hy, buildSlide_number, buildSlide_number, hn1, hn2]
    exact this
  · intro s hs
    rw [List.mem_filterMap] at hs
    obtain ⟨f, hf, hsf⟩ := hs
    obtain ⟨n, slug, hm, hbuild⟩ := slideOfName_eq hsf
    rw [hbuild, buildSlide_filename, hm]
    rfl

/-- C1 witness: a concrete directory of two well-formed slide filenames
listed out of order. -/
theorem discover_slides_complete_and_ordered_witness :
    (∀ f ∈ ["011-b.html", "001-a.html"], (parseCore f.data).isSome = true) ∧
      ((discover_slides true ["011-b.html", "001-a.html"] (fun _ => none)).length =
          ((["011-b.html", "001-a.html"].filter
            fun f => (slidePatternMatch f).isSome)).length ∧
        List.Chain' (fun a b => pyIntOfDigits a.number ≤ pyIntOfDigits b.number)
          (discover_slides true ["011-b.html", "001-a.html"] (fun _ => none)) ∧
        ∀ s ∈ discover_slides true ["011-b.html", "001-a.html"] (fun _ => none),
          (slidePatternMatch s.filename).isSome = true) :=
  ⟨by decide,
    discover_slides_complete_and_ordered ["011-b.html", "001-a.html"] (fun _ => none)
      (by decide)⟩

/-- C9 counterexample: the malformed ordinal `"abc"` makes the `int()`
conversion fail inside the command; the resulting `ValueError` is not a
`ClickException`, so the invocation ends in an unhandled-exception crash,
not in a clean message exit as the claim states. -/
theorem create_slide_bad_ordinal_cex :
    pyIntParse "abc" = none ∧
      cli_invoke (create_slide "Demo" "<p>x</p>" "abc" none) =
        CliOutcome.crash (PyError.valueError "abc") ∧
      ∀ msg, cli_invoke (create_slide "Demo" "<p>x</p>" "abc" none) ≠
        CliOutcome.messageExit msg := by
  have hmid : cli_invoke (create_slide "Demo" "<p>x</p>" "abc" none) =
      CliOutcome.crash (PyError.valueError "abc") := by decide
  refine ⟨by decide, hmid, ?_⟩
  intro msg hcontra
  rw [hmid] at hcontra
  exact CliOutcome.noConfusion hcontra

/-- C9 (amended): a malformed ordinal surfaces as the `ValueError` of the
`int()` conversion inside the command body; the exception is not caught,
so the invocation terminates as an unhandled crash rather than a clean
message exit. -/
theorem create_slide_bad_ordinal_uncaught (title content number : String)
    (sect : Option String) (h : pyIntParse number = none) :
    create_slide title content number sect = Except.error (PyError.valueError number) ∧
      cli_invoke (create_slide title content number sect) =
        CliOutcome.crash (PyError.valueError number) := by
  have h1 : create_slide title content number sect =
      Except.error (PyError.valueError number) := by
    unfold create_slide
    rw [h]
  exact ⟨h1, by rw [h1]; rfl⟩

/-- C9 witness: the concrete malformed ordinal `"12a"`. -/
theorem create_slide_bad_ordinal_uncaught_witness :
    pyIntParse "12a" = none ∧
      (create_slide "T" "c" "12a" none = Except.error (PyError.valueError "12a") ∧
        cli_invoke (create_slide "T" "c" "12a" none) =
          CliOutcome.crash (PyError.valueError "12a")) :=
  ⟨by decide, create_slide_bad_ordinal_uncaught "T" "c" "12a" none (by decide)⟩

theorem natToDigits_ne_nil (fuel n : Nat) : natToDigits (fuel + 1) n ≠ [] := by
  unfold natToDigits
  split_ifs with h
  · simp
  · simp

theorem natToDigits_all_digits : ∀ (fuel n : Nat), ∀ c ∈ natToDigits fuel n,
    pyIsDigit c = true := by
  intro fuel
  induction fuel with
  | zero => intro n c hc; simp [natToDigits] at hc
  | succ fuel ih =>
    intro n c hc
    unfold natToDigits at hc
    split_ifs at hc with h
    · simp at hc
      subst hc
      interval_cases n <;> decide
    · rw [List.mem_append] at hc
      rcases hc with hc | hc
      · exact ih (n / 10) c hc
      · simp at hc
        subst hc
        have hm : n % 10 < 10 := Nat.mod_lt _ (by omega)
        set m := n % 10 with hmm
        interval_cases m <;> decide

theorem natToDigits_length_le : ∀ (fuel n k : Nat), n < fuel → 1 ≤ k → n < 10 ^ k →
    (natToDigits fuel n).length ≤ k := by
  intro fuel
  induction fuel with
  | zero => intro n k h _ _; omega
  | succ fuel ih =>
    intro n k hn hk hnk
    unfold natToDigits
    split_ifs with h
    · simpa using hk
    · rw [List.length_append]
      simp only [List.length_cons, List.length_nil]
      have hk2 : 2 ≤ k := by
        by_contra hlt
        have hk1 : k = 1 := by omega
        subst hk1
        simp at hnk
        omega
      have hdiv : n / 10 < fuel := by
        have h1 : n / 10 < n := Nat.div_lt_self (by omega) (by omega)
        omega
      have hdivk : n / 10 < 10 ^ (k - 1) := by
        rw [Nat.div_lt_iff_lt_mul (by omega)]
        have hpow : 10 ^ (k - 1) * 10 = 10 ^ k := by
          rw [← pow_succ]
          congr 1
          omega
        rw [hpow]
        exact hnk
      have := ih (n / 10) (k - 1) hdiv (by omega) hdivk
      omega

theorem natToDigits_length_ge : ∀ (fuel n k : Nat), n < fuel → 10 ^ k ≤ n →
    k + 1 ≤ (natToDigits fuel n).length := by
  intro fuel
  induction fuel with
  | zero => intro n k h _; omega
  | succ fuel ih =>
    intro n k hn hnk
    unfold natToDigits
    split_ifs with h
    · have hk : k = 0 := by
        by_contra hk0
        have h10 : (10 : Nat) = 10 ^ 1 := by norm_num
        have : (10 : Nat) ^ 1 ≤ 10 ^ k := Nat.pow_le_pow_right (by omega) (by omega)
        omega
      subst hk
      simp
    · rw [List.length_append]
      simp only [List.length_cons, List.length_nil]
      cases k with
      | zero => omega
      | succ k2 =>
        have hdiv : n / 10 < fuel := by
          have h1 : n / 10 < n := Nat.div_lt_self (by omega) (by omega)
          omega
        have hdivk : 10 ^ k2 ≤ n / 10 := by
          rw [Nat.le_div_iff_mul_le (by omega)]
          have hpow : 10 ^ k2 * 10 = 10 ^ (k2 + 1) := by rw [← pow_succ]
          rw [hpow]
          exact hnk
        have := ih (n / 10) k2 hdiv hdivk
        omega

theorem pyFormat03d_nat_eq (n : Nat) : pyFormat03dInt (n : Int) = padZeros 3 (pyStrOfNat n) := by
  unfold pyFormat03dInt
  rw [if_neg (by omega : ¬ (n : Int) < 0)]
  simp

theorem pad3_shape (n : Nat) (h : n ≤ 999) :
    ∃ d1 d2 d3, (pyFormat03dInt (n : Int)).data = [d1, d2, d3] ∧
      pyIsDigit d1 = true ∧ pyIsDigit d2 = true ∧ pyIsDigit d3 = true := by
  rw [pyFormat03d_nat_eq]
  have h1000 : n < 10 ^ 3 := by norm_num; omega
  have hlen3 : (natToDigits (n + 1) n).length ≤ 3 :=
    natToDigits_length_le (n + 1) n 3 (by omega) (by omega) h1000
  have hne := natToDigits_ne_nil n n
  have hdig := natToDigits_all_digits (n + 1) n
  have key : ∀ m : List Char, m.length = 3 → (∀ c ∈ m, pyIsDigit c = true) →
      ∃ d1 d2 d3, m = [d1, d2, d3] ∧ pyIsDigit d1 = true ∧ pyIsDigit d2 = true ∧
        pyIsDigit d3 = true := by
    intro m hm hdm
    match m, hm with
    | [d1, d2, d3], _ =>
      exact ⟨d1, d2, d3, rfl, hdm d1 (by simp), hdm d2 (by simp), hdm d3 (by simp)⟩
  unfold padZeros pyStrOfNat
  split_ifs with hcase
  · apply key
    · simp only [String.data_append]
      rw [List.length_append, List.length_replicate]
      have : (String.mk (natToDigits (n + 1) n)).length = (natToDigits (n + 1) n).length := rfl
      rw [this] at hcase
      have hlen1 : 1 ≤ (natToDigits (n + 1) n).length := by
        cases hnd : natToDigits (n + 1) n with
        | nil => exact absurd hnd hne
        | cons a t => simp
      show 3 - (String.mk (natToDigits (n + 1) n)).length +
        (natToDigits (n + 1) n).length = 3
      omega
    · intro c hc
      simp only [String.data_append] at hc
      rw [List.mem_append] at hc
      rcases hc with hc | hc
      · rw [List.eq_of_mem_replicate hc]
        decide
      · exact hdig c hc
  · apply key
    · have : (String.mk (natToDigits (n + 1) n)).length = (natToDigits (n + 1) n).length := rfl
      rw [this] at hcase
      show (natToDigits (n + 1) n).length = 3
      omega
    · exact hdig

theorem create_slide_filename_data (number3 title : String) :
    (create_slide_filename number3 title).data =
      number3.data ++ ('-' :: ((slideSlug title).data ++ ".html".data)) := by
  unfold create_slide_filename
  simp [String.data_append, List.append_assoc]

/-- C10 counterexample: with the empty title and ordinal 1 (inside the
claimed good range 0-999), the created file is `001-.html`, which the
slide pattern does not match (the slug capture `(.+)` needs at least one
character), so a subsequent discovery run skips the created slide. -/
theorem create_slide_roundtrip_cex :
    (create_slide "" "<p>x</p>" "1" none).toOption.map CreatedSlide.filename =
        some "001-.html" ∧
      slidePatternMatch "001-.html" = none ∧
      discover_slides true ["001-.html"] (fun _ => none) = [] := by
  decide

/-- C10 (amended): for a title whose slug is nonempty and newline-free,
the file created for an ordinal 0 <= n <= 999 carries the zero-padded
3-digit prefix and matches the discovery pattern, hence a subsequent
discovery run on the directory returns the created slide; for n >= 1000
the prefix has more than three digits and the pattern rejects the
filename. -/
theorem create_slide_roundtrip (title content number : String) (sect : Option String)
    (n : Nat) (hn : pyIntParse number = some (n : Int))
    (hs1 : (slideSlug title).data ≠ []) (hs2 : '\n' ∉ (slideSlug title).data) :
    ∃ cs, create_slide title content number sect = Except.ok cs ∧
      cs.filename = create_slide_filename (pyFormat03dInt (n : Int)) title ∧
      (n ≤ 999 →
        (slidePatternMatch cs.filename).isSome = true ∧
        ∀ read, ∃ s ∈ discover_slides true [cs.filename] read, s.filename = cs.filename) ∧
      (1000 ≤ n →
        4 ≤ (pyFormat03dInt (n : Int)).length ∧ slidePatternMatch cs.filename = none) := by
  refine ⟨⟨create_slide_filename (pyFormat03dInt (n : Int)) title,
      create_slide_template (pyFormat03dInt (n : Int) ++ " - " ++ title) content sect⟩,
    ?_, rfl, ?_, ?_⟩
  · unfold create_slide
    rw [hn]
  · intro hle
    obtain ⟨d1, d2, d3, hdata, h1, h2, h3⟩ := pad3_shape n hle
    have hfdata : (create_slide_filename (pyFormat03dInt (n : Int)) title).data =
        d1 :: d2 :: d3 :: '-' :: ((slideSlug title).data ++ ".html".data) := by
      rw [create_slide_filename_data, hdata]
      rfl
    have hp : parseCore (create_slide_filename (pyFormat03dInt (n : Int)) title).data =
        some (String.mk [d1, d2, d3], String.mk (slideSlug title).data) := by
      rw [hfdata]
      exact parseCore_construct h1 h2 h3 hs1 hs2
    have hsm := (discovery_keeps hp).2
    refine ⟨by rw [hsm]; rfl, ?_⟩
    intro read
    exact ⟨buildSlide read (create_slide_filename (pyFormat03dInt (n : Int)) title)
        (String.mk [d1, d2, d3]) (String.mk (slideSlug title).data),
      discover_contains (by simp) hp, buildSlide_filename _ _ _ _⟩
  · intro hge
    have h1000 : (10 : Nat) ^ 3 ≤ n := by norm_num; omega
    have hlen4 : 4 ≤ (natToDigits (n + 1) n).length :=
      natToDigits_length_ge (n + 1) n 3 (by omega) h1000
    have hform : pyFormat03dInt (n : Int) = pyStrOfNat n := by
      rw [pyFormat03d_nat_eq]
      unfold padZeros
      rw [if_neg ?_]
      show ¬ (pyStrOfNat n).length < 3
      have : (pyStrOfNat n).length = (natToDigits (n + 1) n).length := rfl
      omega
    have hlen4' : 4 ≤ (pyFormat03dInt (n : Int)).length := by
      rw [hform]
      have : (pyStrOfNat n).length = (natToDigits (n + 1) n).length := rfl
      omega
    refine ⟨hlen4', ?_⟩
    obtain ⟨d1, d2, d3, d4, rest, hshape⟩ : ∃ d1 d2 d3 d4 rest,
        natToDigits (n + 1) n = d1 :: d2 :: d3 :: d4 :: rest := by
      rcases hl : natToDigits (n + 1) n with _ | ⟨a, _ | ⟨b, _ | ⟨c, _ | ⟨d, r⟩⟩⟩⟩ <;>
        rw [hl] at hlen4
      · simp at hlen4
      · simp at hlen4
      · simp at hlen4
      · simp at hlen4
      · exact ⟨a, b, c, d, r, rfl⟩
    have hd4 : pyIsDigit d4 = true := natToDigits_all_digits (n + 1) n d4 (by rw [hshape]; simp)
    have hAdata : (create_slide_filename (pyFormat03dInt (n : Int)) title).data =
        ((pyFormat03dInt (n : Int)).data ++ '-' :: (slideSlug title).data) ++ ".html".data := by
      rw [create_slide_filename_data]
      simp [List.append_assoc]
    have hfdata : (create_slide_filename (pyFormat03dInt (n : Int)) title).data =
        d1 :: d2 :: d3 :: d4 :: (rest ++ '-' :: ((slideSlug title).data ++ ".html".data)) := by
      rw [create_slide_filename_data, hform]
      have : (pyStrOfNat n).data = natToDigits (n + 1) n := rfl
      rw [this, hshape]
      simp
    have hcore : parseCore (create_slide_filename (pyFormat03dInt (n : Int)) title).data =
        none := by
      rw [hfdata]
      simp only [parseCore]
      rw [if_neg ?_]
      intro hcond
      simp only [Bool.and_eq_true, beq_iff_eq] at hcond
      obtain ⟨⟨⟨_, _⟩, _⟩, hdash⟩ := hcond
      rw [hdash] at hd4
      exact absurd hd4 (by decide)
    rw [slidePatternMatch_eq_parseCore hAdata, hcore]

/-- C10 witness: ordinal 7, title `Intro`. -/
theorem create_slide_roundtrip_witness :
    (pyIntParse "7" = some ((7 : Nat) : Int) ∧ (slideSlug "Intro").data ≠ [] ∧
        '\n' ∉ (slideSlug "Intro").data) ∧
      ∃ cs, create_slide "Intro" "<p>x</p>" "7" none = Except.ok cs ∧
        cs.filename = create_slide_filename (pyFormat03dInt ((7 : Nat) : Int)) "Intro" ∧
        ((7 : Nat) ≤ 999 →
          (slidePatternMatch cs.filename).isSome = true ∧
          ∀ read, ∃ s ∈ discover_slides true [cs.filename] read, s.filename = cs.filename) ∧
        (1000 ≤ (7 : Nat) →
          4 ≤ (pyFormat03dInt ((7 : Nat) : Int)).length ∧
            slidePatternMatch cs.filename = none) :=
  ⟨⟨by decide, by decide, by decide⟩,
    create_slide_roundtrip "Intro" "<p>x</p>" "7" none 7 (by decide) (by decide) (by decide)⟩
